import Mathlib

/-!
Verification development for the fillWise document-template assistant.

The Python sources embedded here are:
  * `ai_backend/app/core/conversation_manager.py`  (namespace `CM`)
  * `ai_backend/app/services/chat_service.py`      (namespace `CS`)

Machine strings are modelled as Lean `String` / `List Char`; the ASCII
fragments of Python's `str.lower`, `str.upper`, `str.title`, `str.strip`,
`str.split`, `str.replace`, `str.find` and slicing are reproduced as
executable functions.  `json.loads` is modelled by a strict recursive-descent
JSON parser producing a `Json` value (objects collapse duplicate keys with
last-value-wins, as Python's parser does).  The regular expressions used by
the sources are small enough that every adjacent (quantifier, follower)
pair has disjoint character classes, so each is reproduced by a
deterministic maximal-munch scanner; this is noted at each scanner.
-/

namespace FillWise

/-- The brace characters, kept out of string literals. -/
def braceL : Char := Char.ofNat 123

/-- Closing brace character. -/
def braceR : Char := Char.ofNat 125

/-- Apostrophe character, used to build message strings. -/
def apos : Char := Char.ofNat 39

/-- Apostrophe as a one-character string. -/
def aposS : String := String.mk [apos]

/-- ASCII whitespace, the fragment of Python whitespace exercised here. -/
def isPyWs (c : Char) : Bool :=
  c == ' ' || c == '\t' || c == '\n' || c == '\x0d' || c == '\x0b' || c == '\x0c'

/-- Model of Python `str.lower` (ASCII fragment). -/
def pyLower (s : List Char) : List Char := s.map Char.toLower

/-- Model of Python `str.upper` (ASCII fragment). -/
def pyUpper (s : List Char) : List Char := s.map Char.toUpper

/-- Helper for `pyTitle`: the Bool records whether the previous character
was alphabetic. -/
def pyTitleAux : Bool → List Char → List Char
  | _, [] => []
  | prevAlpha, c :: rest =>
    (if c.isAlpha then (if prevAlpha then c.toLower else c.toUpper) else c)
      :: pyTitleAux c.isAlpha rest

/-- Model of Python `str.title` (ASCII fragment): the first letter of each
maximal alphabetic run is upper-cased, the others lower-cased. -/
def pyTitle (s : List Char) : List Char := pyTitleAux false s

/-- Model of Python `str.strip` with no argument (ASCII whitespace). -/
def pyStrip (s : List Char) : List Char :=
  ((s.dropWhile isPyWs).reverse.dropWhile isPyWs).reverse

/-- Helper for `pySplit`, accumulating the current word reversed. -/
def pySplitAux : List Char → List Char → List (List Char)
  | [], acc => if acc.isEmpty then [] else [acc.reverse]
  | c :: rest, acc =>
    if isPyWs c then
      if acc.isEmpty then pySplitAux rest [] else acc.reverse :: pySplitAux rest []
    else pySplitAux rest (c :: acc)

/-- Model of Python `str.split` with no argument: split on whitespace runs,
discarding empty words. -/
def pySplit (s : List Char) : List (List Char) := pySplitAux s []

/-- Substring test: Python `needle in hay`. -/
def listContains (hay needle : List Char) : Bool :=
  match hay with
  | [] => needle.isEmpty
  | _ :: rest => needle.isPrefixOf hay || listContains rest needle

/-- Substring test on `String`. -/
def strContains (hay needle : String) : Bool := listContains hay.data needle.data

/-- Model of Python `str.startswith`. -/
def pyStartsWith (s pre : String) : Bool := pre.data.isPrefixOf s.data

/-- Helper for `pyReplace`; the fuel equals the input length, and every
step consumes at least one character. -/
def pyReplaceAux (pat rep : List Char) : Nat → List Char → List Char
  | 0, s => s
  | _ + 1, [] => []
  | fuel + 1, c :: rest =>
    if pat.isPrefixOf (c :: rest) then
      rep ++ pyReplaceAux pat rep fuel (List.drop (pat.length - 1) rest)
    else
      c :: pyReplaceAux pat rep fuel rest

/-- Model of Python `str.replace`: leftmost non-overlapping occurrences of
`pat` are replaced by `rep`.  Callers in the sources never pass an empty
pattern; the guard keeps the function total. -/
def pyReplace (s pat rep : List Char) : List Char :=
  if pat.isEmpty then s else pyReplaceAux pat rep s.length s

/-- Helper for `pyFind`, tracking the current index. -/
def pyFindAux (needle : List Char) : List Char → Nat → Int
  | [], i => if needle.isEmpty then (i : Int) else -1
  | s@(_ :: rest), i => if needle.isPrefixOf s then (i : Int) else pyFindAux needle rest (i + 1)

/-- Model of Python `str.find`: index of the leftmost occurrence, `-1` if
absent. -/
def pyFind (s needle : List Char) : Int := pyFindAux needle s 0

/-- Model of Python `str.find(needle, start)` for the non-negative starts
used by the source. -/
def pyFindFrom (s needle : List Char) (start : Int) : Int :=
  let st := start.toNat
  match pyFind (s.drop st) needle with
  | -1 => -1
  | i => i + (st : Int)

/-- Clamp a Python slice index (possibly negative) to a list offset. -/
def sliceBound (len : Nat) (i : Int) : Nat :=
  if i < 0 then (if (len : Int) + i < 0 then 0 else ((len : Int) + i).toNat)
  else min i.toNat len

/-- Model of Python slicing `s[a:b]`, including negative indices. -/
def pySlice (s : List Char) (a b : Int) : List Char :=
  (s.take (sliceBound s.length b)).drop (sliceBound s.length a)

/-- Python-dict-style association-list write: update in place when the key
exists (keeping its position), append otherwise. -/
def alistSet {α : Type} : List (String × α) → String → α → List (String × α)
  | [], k, v => [(k, v)]
  | (k', v') :: rest, k, v =>
    if k' = k then (k, v) :: rest else (k', v') :: alistSet rest k v

/-- Python `key in dict` on the association-list model. -/
def alistHas {α : Type} (l : List (String × α)) (k : String) : Bool :=
  l.any (fun p => p.1 == k)

/-- Python `dict.get` on the association-list model. -/
def alistGet {α : Type} (l : List (String × α)) (k : String) : Option α :=
  (l.find? (fun p => p.1 == k)).map Prod.snd

/-! ### A model of `json.loads`

Strict JSON values.  Numbers keep their source text: the sources never
compute with a parsed number, they only test whether parsing succeeded and
read string fields. -/

inductive Json where
  | null
  | bool (b : Bool)
  | num (repr : String)
  | str (s : String)
  | arr (xs : List Json)
  | obj (kvs : List (String × Json))

/-- Hex digit value, if any. -/
def hexVal (c : Char) : Option Nat :=
  if c.isDigit then some (c.toNat - 48)
  else if 'a' ≤ c && c ≤ 'f' then some (c.toNat - 87)
  else if 'A' ≤ c && c ≤ 'F' then some (c.toNat - 70)
  else none

/-- JSON string body parser (after the opening quote).  The accumulator is
reversed; the fuel equals the remaining input length. -/
def parseStrAux : Nat → List Char → List Char → Option (String × List Char)
  | 0, _, _ => none
  | _ + 1, [], _ => none
  | fuel + 1, c :: rest, acc =>
    if c == '"' then some (String.mk acc.reverse, rest)
    else if c == '\\' then
      match rest with
      | [] => none
      | e :: rest2 =>
        if e == '"' then parseStrAux fuel rest2 ('"' :: acc)
        else if e == '\\' then parseStrAux fuel rest2 ('\\' :: acc)
        else if e == '/' then parseStrAux fuel rest2 ('/' :: acc)
        else if e == 'b' then parseStrAux fuel rest2 ('\x08' :: acc)
        else if e == 'f' then parseStrAux fuel rest2 ('\x0c' :: acc)
        else if e == 'n' then parseStrAux fuel rest2 ('\n' :: acc)
        else if e == 'r' then parseStrAux fuel rest2 ('\x0d' :: acc)
        else if e == 't' then parseStrAux fuel rest2 ('\t' :: acc)
        else if e == 'u' then
          match rest2 with
          | h1 :: h2 :: h3 :: h4 :: rest3 =>
            match hexVal h1, hexVal h2, hexVal h3, hexVal h4 with
            | some a, some b, some c3, some d =>
              parseStrAux fuel rest3
                (Char.ofNat (((a * 16 + b) * 16 + c3) * 16 + d) :: acc)
            | _, _, _, _ => none
          | _ => none
        else none
    else parseStrAux fuel rest (c :: acc)

/-- JSON string parser, positioned after the opening quote. -/
def parseJStr (s : List Char) : Option (String × List Char) :=
  parseStrAux (s.length + 1) s []

/-- JSON number parser per the strict grammar
`-?(0|[1-9][0-9]*)(.[0-9]+)?((e|E)(+|-)?[0-9]+)?`. -/
def parseJNum (s : List Char) : Option (String × List Char) :=
  let (sign, s1) := match s with
    | '-' :: r => ([('-' : Char)], r)
    | _ => ([], s)
  match s1 with
  | [] => none
  | d :: _ =>
    if ¬ d.isDigit then none else
    let intPart := if d == '0' then ['0'] else s1.takeWhile Char.isDigit
    let s2 := s1.drop intPart.length
    let (fracPart, s3) := match s2 with
      | '.' :: r =>
        let ds := r.takeWhile Char.isDigit
        if ds.isEmpty then ([], s2) else ('.' :: ds, r.drop ds.length)
      | _ => ([], s2)
    if s2 ≠ [] && s2.head? = some '.' && fracPart.isEmpty then none else
    let (expPart, s4) := match s3 with
      | e :: r =>
        if e == 'e' || e == 'E' then
          let (sg, r2) := match r with
            | '+' :: r2 => (['+'], r2)
            | '-' :: r2 => (['-'], r2)
            | _ => ([], r)
          let ds := r2.takeWhile Char.isDigit
          if ds.isEmpty then (([] : List Char), s3)
          else (e :: (sg ++ ds), r2.drop ds.length)
        else ([], s3)
      | [] => ([], s3)
    some (String.mk (sign ++ intPart ++ fracPart ++ expPart), s4)

/-- Skip JSON whitespace. -/
def skipWs (s : List Char) : List Char :=
  s.dropWhile (fun c => c == ' ' || c == '\t' || c == '\n' || c == '\x0d')

mutual

/-- JSON value parser; the fuel dominates the recursion depth. -/
def parseVal : Nat → List Char → Option (Json × List Char)
  | 0, _ => none
  | fuel + 1, s =>
    match skipWs s with
    | [] => none
    | c :: rest =>
      if c == '"' then (parseJStr rest).map (fun p => (Json.str p.1, p.2))
      else if c == braceL then parseObjBody fuel (skipWs rest)
      else if c == '[' then parseArrBody fuel (skipWs rest)
      else if c == 't' then
        if ['r', 'u', 'e'].isPrefixOf rest then some (Json.bool true, rest.drop 3) else none
      else if c == 'f' then
        if ['a', 'l', 's', 'e'].isPrefixOf rest then some (Json.bool false, rest.drop 4) else none
      else if c == 'n' then
        if ['u', 'l', 'l'].isPrefixOf rest then some (Json.null, rest.drop 3) else none
      else if c == '-' || c.isDigit then
        (parseJNum (c :: rest)).map (fun p => (Json.num p.1, p.2))
      else none

/-- Array parser, positioned after `[` and leading whitespace. -/
def parseArrBody : Nat → List Char → Option (Json × List Char)
  | 0, _ => none
  | fuel + 1, s =>
    match s with
    | ']' :: rest => some (Json.arr [], rest)
    | _ =>
      match parseVal fuel s with
      | none => none
      | some (v, rest) => parseArrRest fuel [v] rest

/-- Remaining array elements, after one element has been read. -/
def parseArrRest : Nat → List Json → List Char → Option (Json × List Char)
  | 0, _, _ => none
  | fuel + 1, acc, s =>
    match skipWs s with
    | ']' :: rest => some (Json.arr acc.reverse, rest)
    | ',' :: rest =>
      match parseVal fuel rest with
      | none => none
      | some (v, rest2) => parseArrRest fuel (v :: acc) rest2
    | _ => none

/-- Object parser, positioned after the opening brace and leading
whitespace.  Duplicate keys collapse with last-value-wins, as in Python. -/
def parseObjBody : Nat → List Char → Option (Json × List Char)
  | 0, _ => none
  | fuel + 1, s =>
    match s with
    | c :: rest =>
      if c == braceR then some (Json.obj [], rest)
      else if c == '"' then
        match parseJStr rest with
        | none => none
        | some (k, rest2) =>
          match skipWs rest2 with
          | ':' :: rest3 =>
            match parseVal fuel rest3 with
            | none => none
            | some (v, rest4) => parseObjRest fuel (alistSet [] k v) rest4
          | _ => none
      else none
    | [] => none

/-- Remaining object members, after one member has been read. -/
def parseObjRest : Nat → List (String × Json) → List Char → Option (Json × List Char)
  | 0, _, _ => none
  | fuel + 1, acc, s =>
    match skipWs s with
    | c :: rest =>
      if c == braceR then some (Json.obj acc, rest)
      else if c == ',' then
        match skipWs rest with
        | '"' :: rest2 =>
          match parseJStr rest2 with
          | none => none
          | some (k, rest3) =>
            match skipWs rest3 with
            | ':' :: rest4 =>
              match parseVal fuel rest4 with
              | none => none
              | some (v, rest5) => parseObjRest fuel (alistSet acc k v) rest5
            | _ => none
        | _ => none
      else none
    | [] => none

end

/-- Model of `json.loads`: parse one value and require the rest of the
input to be whitespace.  The fuel `2 * length + 4` exceeds the recursion
depth on every input (each two recursion steps consume at least one
character). -/
def parseJson (s : String) : Option Json :=
  match parseVal (2 * s.data.length + 4) s.data with
  | some (v, rest) => if (skipWs rest).isEmpty then some v else none
  | none => none

/-! ### Scanners for the placeholder regular expressions

The three `re.findall` patterns of the sources are
`\x7b+([a-zA-Z_][a-zA-Z0-9_ ]*)\x7d+`, `\[([A-Za-z][A-Za-z0-9 _]+)\]` and
`<([a-zA-Z_][a-zA-Z0-9_]*)>`.  In each of them every greedy quantifier is
over a character class disjoint from the character that must follow it, so
Python's backtracking matcher coincides with deterministic maximal-munch
scanning; on failure at a start position the scan restarts one character
further, as `re.findall` does, and on success it resumes after the whole
match. -/

/-- Character class `[a-zA-Z_]`. -/
def isIdentStart (c : Char) : Bool := c.isAlpha || c == '_'

/-- Character class `[a-zA-Z0-9_ ]`. -/
def isCurlyBody (c : Char) : Bool := c.isAlpha || c.isDigit || c == '_' || c == ' '

/-- Character class `[A-Za-z0-9 _]`. -/
def isBracketBody (c : Char) : Bool := c.isAlpha || c.isDigit || c == ' ' || c == '_'

/-- Character class `[a-zA-Z0-9_]`. -/
def isAngleBody (c : Char) : Bool := c.isAlpha || c.isDigit || c == '_'

/-- Captures of the curly-brace pattern; fuel is the input length. -/
def scanCurlyAux : Nat → List Char → List (List Char)
  | 0, _ => []
  | _ + 1, [] => []
  | fuel + 1, c :: rest =>
    if c == braceL then
      match rest.dropWhile (fun x => x == braceL) with
      | d :: bs =>
        if isIdentStart d then
          match bs.dropWhile isCurlyBody with
          | e :: rest3 =>
            if e == braceR then
              (d :: bs.takeWhile isCurlyBody)
                :: scanCurlyAux fuel (rest3.dropWhile (fun x => x == braceR))
            else scanCurlyAux fuel rest
          | [] => scanCurlyAux fuel rest
        else scanCurlyAux fuel rest
      | [] => []
    else scanCurlyAux fuel rest

/-- All captures of `\x7b+([a-zA-Z_][a-zA-Z0-9_ ]*)\x7d+`. -/
def scanCurly (s : List Char) : List (List Char) := scanCurlyAux s.length s

/-- Captures of the square-bracket pattern; fuel is the input length. -/
def scanBracketAux : Nat → List Char → List (List Char)
  | 0, _ => []
  | _ + 1, [] => []
  | fuel + 1, c :: rest =>
    if c == '[' then
      match rest with
      | d :: bs =>
        if d.isAlpha then
          let body := bs.takeWhile isBracketBody
          if body.isEmpty then scanBracketAux fuel rest
          else
            match bs.dropWhile isBracketBody with
            | e :: rest3 =>
              if e == ']' then (d :: body) :: scanBracketAux fuel rest3
              else scanBracketAux fuel rest
            | [] => scanBracketAux fuel rest
        else scanBracketAux fuel rest
      | [] => []
    else scanBracketAux fuel rest

/-- All captures of `\[([A-Za-z][A-Za-z0-9 _]+)\]`. -/
def scanBracket (s : List Char) : List (List Char) := scanBracketAux s.length s

/-- Captures of the angle-bracket pattern; fuel is the input length. -/
def scanAngleAux : Nat → List Char → List (List Char)
  | 0, _ => []
  | _ + 1, [] => []
  | fuel + 1, c :: rest =>
    if c == '<' then
      match rest with
      | d :: bs =>
        if isIdentStart d then
          match bs.dropWhile isAngleBody with
          | e :: rest3 =>
            if e == '>' then
              (d :: bs.takeWhile isAngleBody) :: scanAngleAux fuel rest3
            else scanAngleAux fuel rest
          | [] => scanAngleAux fuel rest
        else scanAngleAux fuel rest
      | [] => []
    else scanAngleAux fuel rest

/-- All captures of `<([a-zA-Z_][a-zA-Z0-9_]*)>`. -/
def scanAngle (s : List Char) : List (List Char) := scanAngleAux s.length s

/-! ### The `re.search` patterns of the common-field heuristic

Each pattern is an alternation of token sequences; tokens are literals,
`\s*`, `[:\s]*` and the marker class `[_\[\x7b<]`.  As above, every greedy
quantifier's class is disjoint from the literal that follows it, so
maximal munch is exact. -/

inductive RTok where
  | lit (cs : List Char)
  | wsStar
  | colonWsStar
  | markerCls

/-- Marker class `[_\[\x7b<]`. -/
def isMarker (c : Char) : Bool := c == '_' || c == '[' || c == braceL || c == '<'

/-- Match one alternative at the head of the input. -/
def matchToks : List RTok → List Char → Option (List Char)
  | [], s => some s
  | .lit cs :: ts, s => if cs.isPrefixOf s then matchToks ts (s.drop cs.length) else none
  | .wsStar :: ts, s => matchToks ts (s.dropWhile isPyWs)
  | .colonWsStar :: ts, s => matchToks ts (s.dropWhile (fun c => c == ':' || isPyWs c))
  | .markerCls :: ts, s =>
    match s with
    | c :: rest => if isMarker c then matchToks ts rest else none
    | [] => none

/-- Model of `re.search` truthiness for an alternation: some alternative
matches at some start position. -/
def searchAlts (alts : List (List RTok)) : List Char → Bool
  | [] => alts.any (fun a => (matchToks a []).isSome)
  | s@(_ :: rest) => alts.any (fun a => (matchToks a s).isSome) || searchAlts alts rest

/-- The common-field synonym table of `conversation_manager.py` lines
176-184, with each alternation split into its alternatives. -/
def commonFields : List (String × List (List RTok)) :=
  [ ("party_a",
      [[.lit "party".data, .wsStar, .lit "a".data],
       [.lit "first".data, .wsStar, .lit "party".data],
       [.lit "disclosing".data, .wsStar, .lit "party".data]]),
    ("party_b",
      [[.lit "party".data, .wsStar, .lit "b".data],
       [.lit "second".data, .wsStar, .lit "party".data],
       [.lit "receiving".data, .wsStar, .lit "party".data]]),
    ("effective_date",
      [[.lit "effective".data, .wsStar, .lit "date".data],
       [.lit "date".data, .wsStar, .lit "of".data, .wsStar, .lit "agreement".data]]),
    ("company_name", [[.lit "company".data, .wsStar, .lit "name".data]]),
    ("your_name",
      [[.lit "your".data, .wsStar, .lit "name".data],
       [.lit "client".data, .wsStar, .lit "name".data]]),
    ("address", [[.lit "address".data]]),
    ("amount", [[.lit "amount".data], [.lit "sum".data], [.lit "payment".data]]) ]

/-- The source builds the marker check by string concatenation,
`pattern + r"[:\s]*[_\[\x7b<]"`; because alternation binds loosest, the
appended suffix attaches only to the LAST alternative of the pattern. -/
def withMarkerOnLast : List (List RTok) → List (List RTok)
  | [] => []
  | [a] => [a ++ [.colonWsStar, .markerCls]]
  | a :: rest => a :: withMarkerOnLast rest

/-! ### Placeholder extraction and template filling -/

/-- Normalization `match.strip().replace(" ", "_").lower()`. -/
def normKey (cap : List Char) : String :=
  String.mk (pyLower (pyReplace (pyStrip cap) [' '] ['_']))

/-- The three syntactic extraction rules, shared verbatim by
`conversation_manager.extract_placeholders` and
`chat_service._extract_placeholders`. -/
def syntacticPlaceholders (t : List Char) : List (String × String) :=
  let p1 := (scanCurly t).foldl
    (fun acc cap => alistSet acc (normKey cap) ("Value for " ++ String.mk cap)) []
  let p2 := (scanBracket t).foldl
    (fun acc cap => alistSet acc (normKey cap) ("Value for " ++ String.mk cap)) p1
  (scanAngle t).foldl
    (fun acc cap =>
      alistSet acc (String.mk (pyLower (pyStrip cap))) ("Value for " ++ String.mk cap)) p2

/-- Plain-text flattening of a possibly-Quill-delta template body: the
in-order string-valued `insert` fields of a JSON array, else the raw text.
This function is identical in `conversation_manager.extract_template_text`
and `chat_service._extract_template_text`. -/
def extract_template_text (content : String) : String :=
  match parseJson content with
  | some (.arr ops) =>
    String.join (ops.foldr
      (fun op acc =>
        match op with
        | .obj kvs =>
          match alistGet kvs "insert" with
          | some (.str s) => s :: acc
          | _ => acc
        | _ => acc) [])
  | _ => content

namespace CM

/-- Embedding of `conversation_manager.extract_placeholders`: the three
syntactic rules followed by the heuristic common-field loop. -/
def extract_placeholders (template_text : String) : List (String × String) :=
  let text_lower := pyLower template_text.data
  commonFields.foldl
    (fun acc fp =>
      if searchAlts fp.2 text_lower && ¬ alistHas acc fp.1 then
        if searchAlts (withMarkerOnLast fp.2) text_lower then
          alistSet acc fp.1
            ("Please provide the " ++ String.mk (pyReplace fp.1.data ['_'] [' ']))
        else acc
      else acc)
    (syntacticPlaceholders template_text.data)

/-- Embedding of `conversation_manager.fill_template`: for each collected
value, literal global replacement of seven placeholder spellings (note: no
Title-Case curly form). -/
def fill_template (template_text : String) (values : List (String × String)) : String :=
  String.mk (values.foldl
    (fun acc fv =>
      let fn := fv.1.data
      let v := fv.2.data
      let spaced := pyReplace fn ['_'] [' ']
      let pats : List (List Char) :=
        [ braceL :: fn ++ [braceR],
          braceL :: spaced ++ [braceR],
          braceL :: pyUpper fn ++ [braceR],
          '[' :: fn ++ [']'],
          '[' :: pyTitle spaced ++ [']'],
          '[' :: pyUpper fn ++ [']'],
          '<' :: fn ++ ['>'] ]
      pats.foldl (fun a p => pyReplace a p v) acc)
    template_text.data)

/-- Creation-intent keywords of `conversation_manager.detect_template`. -/
def creationKeywords : List String :=
  ["create", "make", "generate", "draft", "write", "prepare", "need", "want",
   "help me with", "can you", "let" ++ aposS ++ "s", "lets"]

/-- Alias table of `conversation_manager.detect_template`. -/
def aliases : List (String × List String) :=
  [ ("nda", ["non-disclosure", "non disclosure", "confidentiality",
             "confidential agreement", "secrecy agreement"]),
    ("contract", ["agreement", "deal", "terms"]),
    ("invoice", ["bill", "billing", "payment"]),
    ("letter", ["correspondence", "mail"]),
    ("proposal", ["offer", "pitch", "quotation"]),
    ("resume", ["cv", "curriculum vitae"]),
    ("employment", ["job", "hiring", "work"]) ]

end CM

/-- Template record (`schemas/template_config.py`), restricted to the
fields the chat core reads.  `list_templates()` already returns templates
in store order, which is the order the parameter list supplies. -/
structure Template where
  id : String
  name : String
  description : Option String := none
  content : String := ""
  is_active : Bool := true
deriving DecidableEq

/-- The best-match loop of `conversation_manager.detect_template`,
abstracted over the per-template score: keep the first template whose
score strictly exceeds the best seen so far, skipping inactive
templates. -/
def detectFold (f : Template → Nat) (l : List Template) : Option Template × Nat :=
  l.foldl
    (fun (acc : Option Template × Nat) t =>
      if ¬ t.is_active then acc
      else if f t > acc.2 then (some t, f t) else acc)
    (none, 0)

namespace CM

/-- Per-template score of `conversation_manager.detect_template`,
sequential additions as in the source.  Python computes the boost as
`int(score * 1.5)`; for every score reachable here the float product is
exact, so it equals `3 * score / 2` with truncating division. -/
def templateScore (prompt_lower : String) (t : Template) : Nat :=
  let name_lower := String.mk (pyLower t.name.data)
  let desc_lower := String.mk (pyLower (t.description.getD "").data)
  let s1 := if strContains prompt_lower name_lower then 100 else 0
  let s2 := (pySplit name_lower.data).foldl
    (fun a w => if w.length > 2 && listContains prompt_lower.data w then a + 30 else a) s1
  let s3 :=
    if desc_lower ≠ "" then
      (pySplit desc_lower.data).foldl
        (fun a w => if w.length > 3 && listContains prompt_lower.data w then a + 10 else a) s2
    else s2
  let s4 := aliases.foldl
    (fun a kv =>
      if strContains name_lower kv.1 then
        kv.2.foldl (fun b al => if strContains prompt_lower al then b + 50 else b) a
      else a) s3
  if creationKeywords.any (fun kw => strContains prompt_lower kw) && s4 > 0 then
    3 * s4 / 2
  else s4

/-- Embedding of `conversation_manager.detect_template`: fold over the
templates keeping the first strictly-highest score, skip inactive
templates, and answer only when the best score reaches 30. -/
def detect_template (templates : List Template) (prompt : String) : Option Template :=
  let pl := String.mk (pyLower prompt.data)
  let best := detectFold (templateScore pl) templates
  if best.2 ≥ 30 then best.1 else none

end CM

namespace CS

/-- Arguments of one tool call, mirroring the keys `_execute_tool` reads
from the argument dict (string-encoded argument payloads are already
parsed here; malformed ones parse to the all-default record, as the
`json.loads` fallback at lines 204-208 yields the empty dict). -/
structure ToolArgs where
  template_id : Option String := none
  title : Option String := none
  values : List (String × String) := []
deriving DecidableEq

/-- One requested tool invocation from the model. -/
structure ToolCall where
  name : String
  args : ToolArgs
deriving DecidableEq

/-- One history entry of a `ConversationSession`; assistant entries that
carried tool calls keep them, mirroring the dict written at
`chat_service.py` line 236. -/
structure Msg where
  role : String
  content : String
  tool_calls : List ToolCall := []
deriving DecidableEq

/-- Session state (`ConversationSession` of `chat_service.py`). -/
structure Session where
  messages : List Msg := []
  selected_template_id : Option String := none
  collected_values : List (String × String) := []
  generated_document : Option String := none
  document_title : Option String := none
deriving DecidableEq

/-- The response dataclass `ChatResponse` (pending_fields is never set by
this service and is omitted). -/
structure ChatResponse where
  reply : String
  template_id : Option String := none
  state : String := "idle"
  collected_values : List (String × String) := []
  generated_document : Option String := none
  document_title : Option String := none
  document_saved : Bool := false
  saved_document_id : Option String := none
deriving DecidableEq

/-- A stored document (`document_manager.Document`, minus timestamps).
The source assigns `str(uuid4())`; the model assigns the decimal rendering
of a fresh counter, which no claim observes beyond freshness. -/
structure Document where
  id : String
  title : String
  content : String
  template_id : Option String := none
  template_name : Option String := none
  filled_values : List (String × String) := []
deriving DecidableEq

/-- Outcome of the chat endpoint (`_call_ollama_chat`): a transport or
status error string, or the assistant message's content and tool calls. -/
inductive ChatApiResult where
  | err (e : String)
  | ok (content : String) (tool_calls : List ToolCall)
deriving DecidableEq

/-- Result dictionary of `_execute_tool`, with one optional field per key
any result shape ever carries. -/
structure ToolResult where
  success : Option Bool := none
  error : Option String := none
  message : Option String := none
  content : Option String := none
  document_id : Option String := none
  title : Option String := none
  templates : List (String × String × Option String) := []
  template_id : Option String := none
  template_name : Option String := none
  template_description : Option String := none
  fields : List String := []
  field_descriptions : List (String × String) := []
  template_preview : Option String := none
deriving DecidableEq

/-- Embedding of `template_manager.get_template`: first store entry with
the requested id; `None` ids match nothing. -/
def get_template (ts : List Template) : Option String → Option Template
  | none => none
  | some i => ts.find? (fun t => t.id == i)

/-- Embedding of `chat_service._extract_placeholders` (three syntactic
rules only — no heuristic common-field detection). -/
def extract_placeholders (template_text : String) : List (String × String) :=
  syntacticPlaceholders template_text.data

/-- Embedding of `chat_service._fill_template`: eight placeholder
spellings per field, including the Title-Case curly form
`\x7bfield_name.title()\x7d` that `CM.fill_template` lacks. -/
def fill_template (template_text : String) (values : List (String × String)) : String :=
  String.mk (values.foldl
    (fun acc fv =>
      let fn := fv.1.data
      let v := fv.2.data
      let spaced := pyReplace fn ['_'] [' ']
      let pats : List (List Char) :=
        [ braceL :: fn ++ [braceR],
          braceL :: spaced ++ [braceR],
          braceL :: pyUpper fn ++ [braceR],
          braceL :: pyTitle fn ++ [braceR],
          '[' :: fn ++ [']'],
          '[' :: pyTitle spaced ++ [']'],
          '[' :: pyUpper fn ++ [']'],
          '<' :: fn ++ ['>'] ]
      pats.foldl (fun a p => pyReplace a p v) acc)
    template_text.data)

/-- Output of one `_execute_tool` dispatch. -/
structure ToolOut where
  result : ToolResult
  session : Session
  docs : List Document
  nextId : Nat
deriving DecidableEq

/-- The generate-document success message
`"Document '<title>' has been created using the '<name>' template."`. -/
def gdMessage (tname title : String) : String :=
  "Document " ++ aposS ++ title ++ aposS ++ " has been created using the "
    ++ aposS ++ tname ++ aposS ++ " template."

/-- Embedding of `chat_service._execute_tool`.  The document store and a
fresh-id counter stand for `document_manager`. -/
def executeTool (ts : List Template) (tool_name : String) (args : ToolArgs)
    (session : Session) (docs : List Document) (nid : Nat) : ToolOut :=
  if tool_name = "list_templates" then
    let infos := (ts.filter (·.is_active)).map (fun t => (t.id, t.name, t.description))
    { result := { templates := infos },
      session := session, docs := docs, nextId := nid }
  else if tool_name = "select_template" then
    match get_template ts args.template_id with
    | some t =>
      { result := { success := some true, template_id := some t.id,
                    template_name := some t.name, template_description := t.description },
        session := { session with selected_template_id := args.template_id },
        docs := docs, nextId := nid }
    | none =>
      { result := { success := some false, error := some "Template not found" },
        session := session, docs := docs, nextId := nid }
  else if tool_name = "get_template_fields" then
    match get_template ts args.template_id with
    | some t =>
      let content := extract_template_text t.content
      let flds := extract_placeholders content
      { result := { template_id := args.template_id, template_name := some t.name,
                    fields := flds.map Prod.fst, field_descriptions := flds,
                    template_preview := some
                      (if content.length > 500 then content.take 500 ++ "..." else content) },
        session := session, docs := docs, nextId := nid }
    | none =>
      { result := { error := some "Template not found" },
        session := session, docs := docs, nextId := nid }
  else if tool_name = "generate_document" then
    let title := args.title.getD "Untitled Document"
    match get_template ts args.template_id with
    | none =>
      { result := { success := some false, error := some "Template not found" },
        session := session, docs := docs, nextId := nid }
    | some t =>
      let content := extract_template_text t.content
      let filled := fill_template content args.values
      let doc : Document :=
        { id := toString nid, title := title, content := filled,
          template_id := args.template_id, template_name := some t.name,
          filled_values := args.values }
      let session' : Session :=
        { session with generated_document := some filled,
                       document_title := some title, collected_values := args.values }
      { result := { success := some true, document_id := some doc.id,
                    title := some title, content := some filled,
                    message := some (gdMessage t.name title) },
        session := session', docs := docs ++ [doc], nextId := nid + 1 }
  else
    { result := { error := some ("Unknown tool: " ++ tool_name) },
      session := session, docs := docs, nextId := nid }

/-- The document-saved reply built at `chat_service.py` line 216. -/
def docSavedReply (message : String) : String :=
  "✅ **Document Created!**\n\n" ++ message
    ++ "\n\nYour document has been saved to the Documents section."

/-- The `ChatResponse` built when a `generate_document` call succeeded
(`chat_service.py` lines 215-224). -/
def mkDocSavedResponse (args : ToolArgs) (result : ToolResult) : ChatResponse :=
  { reply := docSavedReply (result.message.getD ""),
    template_id := args.template_id,
    state := "document_saved",
    collected_values := args.values,
    generated_document := result.content,
    document_title := args.title,
    document_saved := true,
    saved_document_id := result.document_id }

/-- Stand-in rendering for `json.dumps` of a tool-result dict inside the
tool-result history line.  No verified claim observes this string; only
its presence in the appended tool message matters. -/
def renderResult (r : ToolResult) : String :=
  String.intercalate ", "
    (((r.success.map (fun b => "success=" ++ toString b)).toList)
      ++ ((r.error.map (fun e => "error=" ++ e)).toList)
      ++ ((r.message.map (fun m => "message=" ++ m)).toList)
      ++ ((r.document_id.map (fun i => "document_id=" ++ i)).toList))

/-- The `tool_result_text` joined at `chat_service.py` lines 231-234. -/
def renderResults (rs : List (String × ToolResult)) : String :=
  String.intercalate "\n"
    (rs.map (fun p => "Tool " ++ aposS ++ p.1 ++ aposS ++ " returned: " ++ renderResult p.2))

/-- Output of the tool-call dispatch loop (`chat_service.py` lines
196-224): the accumulated `(tool, result)` pairs, the threaded session /
document-store state, and the `final_response` slot, which every
successful `generate_document` call overwrites (so the LAST success
wins). -/
structure BatchOut where
  results : List (String × ToolResult)
  session : Session
  docs : List Document
  nextId : Nat
  final : Option ChatResponse
deriving DecidableEq

/-- The dispatch loop over one batch of model tool calls.  Every call in
the batch is dispatched; the loop never short-circuits. -/
def runBatch (ts : List Template) : List ToolCall → Session → List Document → Nat → BatchOut
  | [], session, docs, nid =>
    { results := [], session := session, docs := docs, nextId := nid, final := none }
  | tc :: rest, session, docs, nid =>
    let out := executeTool ts tc.name tc.args session docs nid
    let tail := runBatch ts rest out.session out.docs out.nextId
    { results := (tc.name, out.result) :: tail.results,
      session := tail.session, docs := tail.docs, nextId := tail.nextId,
      final :=
        match tail.final with
        | some f => some f
        | none =>
          if tc.name == "generate_document" && out.result.success == some true then
            some (mkDocSavedResponse tc.args out.result)
          else none }

/-- Result of one whole chat turn.  `modelCalls` counts the calls issued
to the model endpoint during the turn. -/
structure TurnResult where
  response : ChatResponse
  session : Session
  docs : List Document
  nextId : Nat
  modelCalls : Nat
deriving DecidableEq

/-- The fallback reply of `chat_service.py` line 263. -/
def fallbackReply : String :=
  "I" ++ aposS ++ "m here to help you create documents. What would you like to create?"

/-- Embedding of `chat_service._process_with_tools`.  The model endpoint
is external: `first` is its response to the initial chat call and
`followUp` its response to the follow-up call, when that call is issued
(`modelCalls` reports how many were).  The system prompt built from the
settings and template list is consumed only by the endpoint and therefore
does not appear. -/
def processWithTools (ts : List Template) (first followUp : ChatApiResult)
    (s0 : Session) (docs0 : List Document) (nid0 : Nat) (message : String) : TurnResult :=
  let s1 : Session := { s0 with messages := s0.messages ++ [{ role := "user", content := message }] }
  match first with
  | .err e =>
    { response := { reply := "Error: " ++ e, state := "error" },
      session := s1, docs := docs0, nextId := nid0, modelCalls := 1 }
  | .ok reply_content tool_calls =>
    match tool_calls with
    | [] =>
      let s2 : Session :=
        { s1 with messages := s1.messages ++ [{ role := "assistant", content := reply_content }] }
      { response :=
          { reply := if reply_content = "" then fallbackReply else reply_content,
            template_id := s2.selected_template_id,
            state := "conversing",
            collected_values := s2.collected_values },
        session := s2, docs := docs0, nextId := nid0, modelCalls := 1 }
    | _ =>
      let b := runBatch ts tool_calls s1 docs0 nid0
      match b.final with
      | some fr =>
        let s2 : Session :=
          { b.session with messages := b.session.messages ++ [{ role := "assistant", content := fr.reply }] }
        { response := fr, session := s2, docs := b.docs, nextId := b.nextId, modelCalls := 1 }
      | none =>
        let s2 : Session :=
          { b.session with messages := b.session.messages
              ++ [{ role := "assistant", content := reply_content, tool_calls := tool_calls },
                  { role := "tool", content := renderResults b.results }] }
        match followUp with
        | .err _ =>
          { response :=
              { reply := if reply_content = "" then fallbackReply else reply_content,
                template_id := s2.selected_template_id,
                state := "conversing",
                collected_values := s2.collected_values },
            session := s2, docs := b.docs, nextId := b.nextId, modelCalls := 2 }
        | .ok fu_content _ =>
          if fu_content = "" then
            { response :=
                { reply := if reply_content = "" then fallbackReply else reply_content,
                  template_id := s2.selected_template_id,
                  state := "conversing",
                  collected_values := s2.collected_values },
              session := s2, docs := b.docs, nextId := b.nextId, modelCalls := 2 }
          else
            let s3 : Session :=
              { s2 with messages := s2.messages ++ [{ role := "assistant", content := fu_content }] }
            { response :=
                { reply := fu_content,
                  template_id := s3.selected_template_id,
                  state := "conversing",
                  collected_values := s3.collected_values },
              session := s3, docs := b.docs, nextId := b.nextId, modelCalls := 2 }

/-- String field of a parsed JSON value, as the Python code reads
`action_data.get(...)` expecting a string. -/
def jStr : Option Json → Option String
  | some (.str s) => some s
  | _ => none

/-- Rendering `str(value)` of a scalar JSON value for template filling.
Containers are rendered loosely: no claim evaluates them. -/
def jsonValueStr : Json → String
  | .str s => s
  | .num r => r
  | .bool true => "True"
  | .bool false => "False"
  | .null => "None"
  | .arr _ => "[...]"
  | .obj _ => String.mk (braceL :: "...".data ++ [braceR])

/-- The `values` object of the action block as a field-value map; Python
would crash on a non-dict `values` before any observable effect, so
non-objects map to the empty dict here. -/
def jValues : Option Json → List (String × String)
  | some (.obj kvs) => kvs.map (fun p => (p.1, jsonValueStr p.2))
  | _ => []

/-- Embedding of `chat_service._process_with_llm`.  The single composed
prompt (system prompt, template list, last-10 history, instructions) is
consumed only by the external completion endpoint, whose reply is the
parameter `response`. -/
def processWithLLM (ts : List Template) (response : String)
    (s0 : Session) (docs0 : List Document) (nid0 : Nat) (message : String) : TurnResult :=
  let s1 : Session := { s0 with messages := s0.messages ++ [{ role := "user", content := message }] }
  if pyStartsWith response "Error" then
    { response := { reply := response, state := "error" },
      session := s1, docs := docs0, nextId := nid0, modelCalls := 1 }
  else
    let fence := "```json".data
    let marker := ("\"action\": \"generate_document\"").data
    let conversing : TurnResult :=
      { response :=
          { reply := response,
            template_id := s1.selected_template_id,
            state := "conversing",
            collected_values := s1.collected_values },
        session := { s1 with messages := s1.messages ++ [{ role := "assistant", content := response }] },
        docs := docs0, nextId := nid0, modelCalls := 1 }
    if listContains response.data fence && listContains response.data marker then
      let json_start := pyFind response.data fence + 7
      let json_end := pyFindFrom response.data ("```").data json_start
      let json_str := String.mk (pyStrip (pySlice response.data json_start json_end))
      match parseJson json_str with
      | some (.obj kvs) =>
        if (match alistGet kvs "action" with
            | some (.str a) => a == "generate_document"
            | _ => false) then
          let args : ToolArgs :=
            { template_id := jStr (alistGet kvs "template_id"),
              title := jStr (alistGet kvs "title"),
              values := jValues (alistGet kvs "values") }
          let out := executeTool ts "generate_document" args s1 docs0 nid0
          if out.result.success == some true then
            let clean_reply := String.mk (pyStrip (pySlice response.data 0 (pyFind response.data fence)))
            let final_reply := clean_reply ++ "\n\n" ++ docSavedReply (out.result.message.getD "")
            let s2 : Session :=
              { out.session with messages := out.session.messages
                  ++ [{ role := "assistant", content := final_reply }] }
            { response :=
                { reply := final_reply,
                  template_id := args.template_id,
                  state := "document_saved",
                  collected_values := args.values,
                  generated_document := out.result.content,
                  document_title := args.title,
                  document_saved := true,
                  saved_document_id := out.result.document_id },
              session := s2, docs := out.docs, nextId := out.nextId, modelCalls := 1 }
          else conversing
        else conversing
      | _ => conversing
    else conversing

/-- The reset acknowledgement of `chat_service.py` lines 142-145. -/
def resetReply : String :=
  "🔄 Conversation reset. How can I help you create a document today?"

/-- The reset command list of `chat_service.py` line 140. -/
def resetCommands : List String := ["reset", "start over", "cancel", "new", "clear"]

/-- Session map with Python dict write semantics. -/
def mapSet (m : List (String × Session)) (k : String) (v : Session) : List (String × Session) :=
  alistSet m k v

/-- `get_or_create_session`: existing session, else a fresh one. -/
def getOrCreate (m : List (String × Session)) (k : String) : Session :=
  (alistGet m k).getD {}

/-- Result of `process_message`: the response, the updated session map
and document store, and the number of model-endpoint calls issued. -/
structure ProcessOut where
  response : ChatResponse
  sessions : List (String × Session)
  docs : List Document
  nextId : Nat
  modelCalls : Nat
deriving DecidableEq

/-- Embedding of `chat_service.process_message`: reset-command check,
then dispatch on the tool-calling settings flag.  `first`/`followUp`
feed the tool-calling path and `llmResponse` the structured-prompt path;
whichever path is not taken ignores its oracle. -/
def process_message (use_tool_calling : Bool) (ts : List Template)
    (first followUp : ChatApiResult) (llmResponse : String)
    (sessions : List (String × Session)) (docs : List Document) (nid : Nat)
    (session_id message : String) : ProcessOut :=
  if (String.mk (pyStrip (pyLower message.data))) ∈ resetCommands then
    { response := { reply := resetReply, state := "idle" },
      sessions := mapSet sessions session_id {},
      docs := docs, nextId := nid, modelCalls := 0 }
  else
    let s := getOrCreate sessions session_id
    let r :=
      if use_tool_calling then processWithTools ts first followUp s docs nid message
      else processWithLLM ts llmResponse s docs nid message
    { response := r.response, sessions := mapSet sessions session_id r.session,
      docs := r.docs, nextId := r.nextId, modelCalls := r.modelCalls }

end CS

/-! ### Specification-side definitions

These restate spec.md's wording, for comparison with the embeddings. -/

/-- The spec's flattening rule (§4.2 of spec.md): the in-order
concatenation of string-valued `insert` fields of a JSON array of insert
operations, and the input unchanged otherwise. -/
def insertStr : Json → Option String
  | .obj kvs =>
    match alistGet kvs "insert" with
    | some (.str s) => some s
    | _ => none
  | _ => none

/-- Spec-side flattening (§4.2). -/
def spec_flatten (s : String) : String :=
  match parseJson s with
  | some (.arr ops) => String.join (ops.filterMap insertStr)
  | _ => s

/-- The §4.3 scoring formula as the spec states it: a sum of the four
components, then the 1.5 boost with integer truncation when a
creation-intent keyword is present and the score is positive. -/
def spec_score (pl : String) (t : Template) : Nat :=
  let name_lower := String.mk (pyLower t.name.data)
  let desc_lower := String.mk (pyLower (t.description.getD "").data)
  let base :=
    (if strContains pl name_lower then 100 else 0)
    + 30 * ((pySplit name_lower.data).countP
        (fun w => w.length > 2 && listContains pl.data w))
    + 10 * ((pySplit desc_lower.data).countP
        (fun w => w.length > 3 && listContains pl.data w))
    + 50 * ((CM.aliases.map
        (fun kv =>
          if strContains name_lower kv.1 then
            kv.2.countP (fun al => strContains pl al)
          else 0)).sum)
  if CM.creationKeywords.any (fun kw => strContains pl kw) && base > 0 then
    3 * base / 2
  else base

/-- The §4.3 selection rule as the spec states it: inactive templates are
excluded, the highest score wins with the first template winning ties,
and a match is reported only when that score is at least 30. -/
def spec_detect (ts : List Template) (p : String) : Option Template :=
  let pl := String.mk (pyLower p.data)
  let actives := ts.filter (·.is_active)
  let m := (actives.map (spec_score pl)).foldl max 0
  if m ≥ 30 then actives.find? (fun t => spec_score pl t == m) else none

/-- A tool call is a successful `generate_document` exactly when it bears
that name and its template id resolves; tool dispatch never changes the
template store, so this is a static property of the batch. -/
def isGdSuccess (ts : List Template) (tc : CS.ToolCall) : Bool :=
  tc.name == "generate_document" && (CS.get_template ts tc.args.template_id).isSome

/-- Name of the template a `generate_document` call resolves to. -/
def gdTemplateName (ts : List Template) (args : CS.ToolArgs) : String :=
  match CS.get_template ts args.template_id with
  | some t => t.name
  | none => ""

/-! ### Concrete fixtures used by the closed theorems -/

/-- A template whose body is exactly the Title-Case curly placeholder. -/
def T1 : Template := { id := "t1", name := "T", content := "\x7bName\x7d" }

/-- A template whose body triggers only the heuristic common-field rule. -/
def T2 : Template := { id := "t2", name := "T2", content := "company name: ____" }

/-- First `generate_document` call of the two-call batch. -/
def gdA : CS.ToolCall :=
  { name := "generate_document",
    args := { template_id := some "t1", title := some "A", values := [("name", "x")] } }

/-- Second `generate_document` call of the two-call batch. -/
def gdB : CS.ToolCall :=
  { name := "generate_document",
    args := { template_id := some "t1", title := some "B", values := [("name", "y")] } }

/-- A structured-prompt model reply carrying a well-formed action block. -/
def llmActionReply : String :=
  "Here you go:\n```json\n\x7b\"action\": \"generate_document\", "
    ++ "\"template_id\": \"t1\", \"title\": \"Doc\", "
    ++ "\"values\": \x7b\"name\": \"Bob\"\x7d\x7d\n```"

/-- The NDA template of the spec's matcher example. -/
def NdaT : Template := { id := "tpl-nda", name := "NDA" }

/-- The Invoice template of the spec's matcher example. -/
def InvoiceT : Template := { id := "tpl-invoice", name := "Invoice" }

/-! ### Supporting lemmas -/

/-- Reading a key just written with Python dict semantics. -/
theorem alistGet_set {α : Type} (m : List (String × α)) (k : String) (v : α) :
    alistGet (alistSet m k v) k = some v := by
  induction m with
  | nil => simp [alistSet, alistGet]
  | cons p rest ih =>
    by_cases h : p.1 = k
    · simp [alistSet, alistGet, h]
    · simp [alistSet, alistGet, h, List.find?]
      simpa [alistGet] using ih

/-- The Python loop collecting string-valued inserts builds exactly the
filterMap of `insertStr`. -/
theorem foldr_inserts (ops : List Json) :
    ops.foldr
      (fun op acc =>
        match op with
        | .obj kvs =>
          match alistGet kvs "insert" with
          | some (.str s) => s :: acc
          | _ => acc
        | _ => acc) []
    = ops.filterMap insertStr := by
  induction ops with
  | nil => rfl
  | cons op rest ih =>
    cases op with
    | obj kvs =>
      simp only [List.foldr_cons, List.filterMap_cons, insertStr]
      cases h : alistGet kvs "insert" with
      | none => simp [h, ih]
      | some j => cases j <;> simp [h, ih]
    | null => simp [List.filterMap_cons, insertStr, ih]
    | bool b => simp [List.filterMap_cons, insertStr, ih]
    | num r => simp [List.filterMap_cons, insertStr, ih]
    | str s => simp [List.filterMap_cons, insertStr, ih]
    | arr xs => simp [List.filterMap_cons, insertStr, ih]

/-! ### Claim theorems -/

/-- C9: filling a template with an empty value map is the identity, both
for the tool-calling path's filler (`chat_service._fill_template`) and
for `conversation_manager.fill_template`. -/
theorem C9_fill_empty_identity (t : String) :
    CS.fill_template t [] = t ∧ CM.fill_template t [] = t :=
  ⟨rfl, rfl⟩

/-- C8: flattening returns the in-order concatenation of the
string-valued insert fields when the input parses as a JSON array, and
the input unchanged otherwise; in particular on the three examples the
spec lists. -/
theorem C8_flattening :
    (∀ s, extract_template_text s = spec_flatten s)
    ∧ extract_template_text
        "[\x7b\"insert\":\"Hello \"\x7d,\x7b\"insert\":\"World\"\x7d]" = "Hello World"
    ∧ extract_template_text "Hello" = "Hello"
    ∧ extract_template_text "\x7bnot json" = "\x7bnot json" := by
  refine ⟨fun s => ?_, rfl, rfl, rfl⟩
  unfold extract_template_text spec_flatten
  cases h : parseJson s with
  | none => rfl
  | some j => cases j <;> simp [foldr_inserts]

/-- C2 (amended): a transport or status error from the model endpoint in
tool-calling mode yields a response in state "error", leaves the document
store untouched and issues no further model call; the session history is
the prior history PLUS the user message of the failed turn, which the
source appends before calling the endpoint. -/
theorem C2_endpoint_error_amended (ts : List Template) (fu : CS.ChatApiResult)
    (s : CS.Session) (docs : List CS.Document) (nid : Nat) (msg e : String) :
    CS.processWithTools ts (.err e) fu s docs nid msg =
      { response := { reply := "Error: " ++ e, state := "error" },
        session := { s with messages := s.messages ++ [{ role := "user", content := msg }] },
        docs := docs, nextId := nid, modelCalls := 1 } :=
  rfl

/-- C2 (counterexample to the claim as stated): after an endpoint error
on a fresh session, the history is not "exactly as it was before the
turn" — the failed turn's user message has been appended and retained. -/
theorem C2_history_counterexample :
    (CS.processWithTools [] (.err "timeout") (.err "") {} [] 0 "hi").session.messages
      = [{ role := "user", content := "hi" }]
    ∧ [({ role := "user", content := "hi" } : CS.Msg)] ≠ ([] : List CS.Msg) :=
  ⟨rfl, by decide⟩

/-- C3 (code bug): the text "first party" contains no blank-fill marker
at all, yet `conversation_manager.extract_placeholders` adds `party_a`:
the marker check's regex is built by appending `[:\s]*[_\[\x7b<]` to the
alternation without grouping, so the suffix binds only to the last
alternative and any earlier alternative matches with no marker. -/
theorem C3_marker_check_bypassed :
    CM.extract_placeholders "first party" = [("party_a", "Please provide the party a")]
    ∧ "first party".data.all (fun c => !(isMarker c)) := by
  constructor
  · rfl
  · decide

/-- C7: a message whose lower-cased, trimmed form is one of the reset
commands replaces the session with a fresh one, returns the fixed
acknowledgement in state "idle", and issues no model call. -/
theorem C7_reset_command (utc : Bool) (ts : List Template) (first fu : CS.ChatApiResult)
    (llm : String) (sessions : List (String × CS.Session)) (docs : List CS.Document)
    (nid : Nat) (sid msg : String)
    (h : String.mk (pyStrip (pyLower msg.data)) ∈ CS.resetCommands) :
    CS.process_message utc ts first fu llm sessions docs nid sid msg =
      { response := { reply := CS.resetReply, state := "idle" },
        sessions := CS.mapSet sessions sid {}, docs := docs, nextId := nid, modelCalls := 0 }
    ∧ alistGet (CS.mapSet sessions sid ({} : CS.Session)) sid = some {} := by
  constructor
  · unfold CS.process_message
    rw [if_pos h]
  · exact alistGet_set sessions sid {}

/-- C7 witness: the reset command "  RESET " on a session with prior
history. -/
theorem C7_reset_command_witness :
    CS.process_message true [] (.err "") (.err "") ""
        [("s", { messages := [{ role := "user", content := "old" }] })] [] 0 "s" "  RESET " =
      { response := { reply := CS.resetReply, state := "idle" },
        sessions := CS.mapSet [("s", { messages := [{ role := "user", content := "old" }] })] "s" {},
        docs := [], nextId := 0, modelCalls := 0 }
    ∧ alistGet (CS.mapSet [("s", ({ messages := [{ role := "user", content := "old" }] } : CS.Session))] "s" ({} : CS.Session)) "s" = some {} :=
  C7_reset_command true [] (.err "") (.err "") ""
    [("s", { messages := [{ role := "user", content := "old" }] })] [] 0 "s" "  RESET "
    (by decide)

/-- C10: in structured-prompt mode a turn is classified as an endpoint
error exactly when the completion text starts with "Error"; in that case
the turn returns that text with state "error" and appends only the user
message to history (the reply is not recorded), identically for a genuine
transport failure and for a model reply that merely starts with
"Error". -/
theorem C10_error_classification (ts : List Template) (response : String)
    (s : CS.Session) (docs : List CS.Document) (nid : Nat) (msg : String) :
    ((CS.processWithLLM ts response s docs nid msg).response.state = "error"
        ↔ pyStartsWith response "Error")
    ∧ (pyStartsWith response "Error" →
        CS.processWithLLM ts response s docs nid msg =
          { response := { reply := response, state := "error" },
            session := { s with messages := s.messages ++ [{ role := "user", content := msg }] },
            docs := docs, nextId := nid, modelCalls := 1 }) := by
  by_cases h : pyStartsWith response "Error"
  · exact ⟨by simp [CS.processWithLLM, h], fun _ => by simp [CS.processWithLLM, h]⟩
  · refine ⟨iff_of_false ?_ h, fun hc => absurd hc h⟩
    simp only [CS.processWithLLM, h]
    repeat' split
    all_goals simp_all

/-- C10 witness: the error classification at a concrete "Error"-headed
reply on a fresh session. -/
theorem C10_error_classification_witness :
    CS.processWithLLM [] "Error: boom" {} [] 0 "hi" =
      { response := { reply := "Error: boom", state := "error" },
        session := { ({} : CS.Session) with
          messages := ({} : CS.Session).messages ++ [{ role := "user", content := "hi" }] },
        docs := [], nextId := 0, modelCalls := 1 } :=
  (C10_error_classification [] "Error: boom" {} [] 0 "hi").2 (by decide)

/-- C4 (amended): `get_template_fields` on a resolvable template returns
the fields of the THREE syntactic rules only (`chat_service`'s extractor
has no heuristic common-field detection), together with the 500-character
preview rule, and mutates nothing. -/
theorem C4_get_template_fields_amended (ts : List Template) (tid : Option String)
    (t : Template) (s : CS.Session) (docs : List CS.Document) (nid : Nat)
    (h : CS.get_template ts tid = some t) :
    CS.executeTool ts "get_template_fields" { template_id := tid } s docs nid =
      { result := { template_id := tid, template_name := some t.name,
                    fields := (CS.extract_placeholders (extract_template_text t.content)).map Prod.fst,
                    field_descriptions := CS.extract_placeholders (extract_template_text t.content),
                    template_preview := some (
                      if (extract_template_text t.content).length > 500
                      then (extract_template_text t.content).take 500 ++ "..."
                      else extract_template_text t.content) },
        session := s, docs := docs, nextId := nid } := by
  simp [CS.executeTool, h]

/-- C4 witness: the amended statement at a concrete store. -/
theorem C4_get_template_fields_witness :
    CS.executeTool [T2] "get_template_fields" { template_id := some "t2" } {} [] 0 =
      { result := { template_id := some "t2", template_name := some T2.name,
                    fields := (CS.extract_placeholders (extract_template_text T2.content)).map Prod.fst,
                    field_descriptions := CS.extract_placeholders (extract_template_text T2.content),
                    template_preview := some (
                      if (extract_template_text T2.content).length > 500
                      then (extract_template_text T2.content).take 500 ++ "..."
                      else extract_template_text T2.content) },
        session := {}, docs := [], nextId := 0 } :=
  C4_get_template_fields_amended [T2] (some "t2") T2 {} [] 0 (by decide)

/-- C4 (counterexample to the claim as stated): on a template whose body
only the §4.1 heuristic rule matches, `get_template_fields` returns no
fields, while the §4.1 merge (the `conversation_manager` extractor, which
includes the heuristic) yields `company_name`. -/
theorem C4_heuristic_missing_counterexample :
    (CS.executeTool [T2] "get_template_fields" { template_id := some "t2" } {} [] 0).result.field_descriptions = []
    ∧ CM.extract_placeholders (extract_template_text T2.content)
        = [("company_name", "Please provide the company name")]
    ∧ ([] : List (String × String)) ≠ [("company_name", "Please provide the company name")] :=
  ⟨rfl, rfl, by decide⟩

/-- C5 (amended): both generation paths share `_execute_tool`'s
generate-document handler, whose filler is `chat_service._fill_template`;
that filler DOES replace the Title-Case curly-brace form, and the only
filler omitting that form (`conversation_manager.fill_template`) is not
the one either path uses. -/
theorem C5_filler_amended (ts : List Template) (args : CS.ToolArgs) (s : CS.Session)
    (docs : List CS.Document) (nid : Nat) (t : Template)
    (h : CS.get_template ts args.template_id = some t) :
    (CS.executeTool ts "generate_document" args s docs nid).result.content
        = some (CS.fill_template (extract_template_text t.content) args.values)
    ∧ CS.fill_template "\x7bName\x7d" [("name", "Bob")] = "Bob"
    ∧ CM.fill_template "\x7bName\x7d" [("name", "Bob")] = "\x7bName\x7d" := by
  refine ⟨?_, rfl, rfl⟩
  simp [CS.executeTool, h]

/-- C5 witness: the amended statement at a concrete generate call. -/
theorem C5_filler_amended_witness :
    (CS.executeTool [T1] "generate_document" gdA.args {} [] 0).result.content
        = some (CS.fill_template (extract_template_text T1.content) gdA.args.values)
    ∧ CS.fill_template "\x7bName\x7d" [("name", "Bob")] = "Bob"
    ∧ CM.fill_template "\x7bName\x7d" [("name", "Bob")] = "\x7bName\x7d" :=
  C5_filler_amended [T1] gdA.args {} [] 0 T1 (by decide)

set_option maxRecDepth 4000 in
/-- C5 (counterexample to the claim as stated): a document generated
through the structured-prompt path from the template body consisting of
exactly the Title-Case curly placeholder comes out fully replaced — the
structured-prompt path's filler does handle that form. -/
theorem C5_structured_path_counterexample :
    (CS.processWithLLM [T1] llmActionReply {} [] 0 "make it").response.generated_document
        = some "Bob"
    ∧ (CS.processWithLLM [T1] llmActionReply {} [] 0 "make it").response.state
        = "document_saved"
    ∧ some "Bob" ≠ some ("\x7bName\x7d" : String) :=
  ⟨rfl, rfl, by decide⟩

/-- The loop's `final_response` guard equals the static success test. -/
theorem executeTool_cond (ts : List Template) (tc : CS.ToolCall) (s : CS.Session)
    (docs : List CS.Document) (nid : Nat) :
    (tc.name == "generate_document"
      && (CS.executeTool ts tc.name tc.args s docs nid).result.success == some true)
    = isGdSuccess ts tc := by
  by_cases hn : tc.name = "generate_document"
  · rw [hn]
    unfold isGdSuccess
    rw [hn]
    cases hg : CS.get_template ts tc.args.template_id with
    | none => simp [CS.executeTool, hg]
    | some t => simp [CS.executeTool, hg]
  · unfold isGdSuccess
    have h1 : (tc.name == "generate_document") = false := by simp [hn]
    simp [h1]

/-- Dispatching one tool call grows the document store by one document
exactly when the call is a successful `generate_document`. -/
theorem executeTool_docs_length (ts : List Template) (tc : CS.ToolCall) (s : CS.Session)
    (docs : List CS.Document) (nid : Nat) :
    (CS.executeTool ts tc.name tc.args s docs nid).docs.length
      = docs.length + (if isGdSuccess ts tc then 1 else 0) := by
  by_cases h1 : tc.name = "list_templates"
  · simp [CS.executeTool, h1, isGdSuccess]
  · by_cases h2 : tc.name = "select_template"
    · cases hg : CS.get_template ts tc.args.template_id <;>
        simp [CS.executeTool, h1, h2, hg, isGdSuccess]
    · by_cases h3 : tc.name = "get_template_fields"
      · cases hg : CS.get_template ts tc.args.template_id <;>
          simp [CS.executeTool, h1, h2, h3, hg, isGdSuccess]
      · by_cases h4 : tc.name = "generate_document"
        · cases hg : CS.get_template ts tc.args.template_id <;>
            simp [CS.executeTool, h1, h2, h3, h4, hg, isGdSuccess]
        · simp [CS.executeTool, h1, h2, h3, h4, isGdSuccess]

/-- A successful `generate_document` dispatch reports success and carries
the confirmation message determined by the resolved template's name and
the supplied title. -/
theorem executeTool_gd_fields (ts : List Template) (tc : CS.ToolCall) (s : CS.Session)
    (docs : List CS.Document) (nid : Nat) (hp : isGdSuccess ts tc = true) :
    (CS.executeTool ts tc.name tc.args s docs nid).result.success = some true
    ∧ (CS.executeTool ts tc.name tc.args s docs nid).result.message
        = some (CS.gdMessage (gdTemplateName ts tc.args)
            (tc.args.title.getD "Untitled Document")) := by
  unfold isGdSuccess at hp
  rw [Bool.and_eq_true] at hp
  obtain ⟨hn, hs⟩ := hp
  rw [beq_iff_eq] at hn
  rw [Option.isSome_iff_exists] at hs
  obtain ⟨t, hg⟩ := hs
  rw [hn]
  constructor
  · simp [CS.executeTool, hg]
  · simp [CS.executeTool, hg, gdTemplateName]

/-- A batch with no successful `generate_document` call leaves the
`final_response` slot empty. -/
theorem runBatch_final_none (ts : List Template) :
    ∀ (tcs : List CS.ToolCall) (s : CS.Session) (docs : List CS.Document) (nid : Nat),
    tcs.filter (isGdSuccess ts) = [] →
    (CS.runBatch ts tcs s docs nid).final = none := by
  intro tcs
  induction tcs with
  | nil => intro s docs nid _; rfl
  | cons tc rest ih =>
    intro s docs nid h
    rw [List.filter_cons] at h
    by_cases hp : isGdSuccess ts tc
    · rw [if_pos hp] at h; exact absurd h (by simp)
    · rw [if_neg hp] at h
      simp only [CS.runBatch]
      rw [ih _ _ _ h]
      rw [executeTool_cond]
      simp [hp]

/-- When the batch contains successful `generate_document` calls, the
`final_response` slot holds the response of the LAST of them (each
success overwrites the slot), carrying that call's arguments and its
confirmation message. -/
theorem runBatch_final_some (ts : List Template) :
    ∀ (tcs : List CS.ToolCall) (s : CS.Session) (docs : List CS.Document) (nid : Nat)
      (tc0 : CS.ToolCall),
    (tcs.filter (isGdSuccess ts)).getLast? = some tc0 →
    ∃ r : CS.ToolResult,
      (CS.runBatch ts tcs s docs nid).final = some (CS.mkDocSavedResponse tc0.args r)
      ∧ r.message = some (CS.gdMessage (gdTemplateName ts tc0.args)
          (tc0.args.title.getD "Untitled Document")) := by
  intro tcs
  induction tcs with
  | nil => intro s docs nid tc0 h; exact absurd h (by simp)
  | cons tc rest ih =>
    intro s docs nid tc0 h
    rw [List.filter_cons] at h
    by_cases hp : isGdSuccess ts tc
    · rw [if_pos hp] at h
      cases hrest : rest.filter (isGdSuccess ts) with
      | nil =>
        rw [hrest] at h
        simp only [List.getLast?] at h
        have htc : tc = tc0 := by
          simpa using h
        subst htc
        simp only [CS.runBatch]
        rw [runBatch_final_none ts rest _ _ _ hrest]
        rw [executeTool_cond]
        rw [hp]
        exact ⟨(CS.executeTool ts tc.name tc.args s docs nid).result, rfl,
          (executeTool_gd_fields ts tc s docs nid hp).2⟩
      | cons x xs =>
        rw [hrest] at h
        rw [List.getLast?_cons_cons] at h
        have h' : (rest.filter (isGdSuccess ts)).getLast? = some tc0 := by
          rw [hrest]
          exact h
        simp only [CS.runBatch]
        obtain ⟨r, hr, hm⟩ := ih _ _ _ tc0 h'
        rw [hr]
        exact ⟨r, rfl, hm⟩
    · rw [if_neg hp] at h
      simp only [CS.runBatch]
      obtain ⟨r, hr, hm⟩ := ih _ _ _ tc0 h
      rw [hr]
      exact ⟨r, rfl, hm⟩

/-- The batch dispatch loop creates one document per successful
`generate_document` call of the WHOLE batch: no call is skipped. -/
theorem runBatch_docs_length (ts : List Template) :
    ∀ (tcs : List CS.ToolCall) (s : CS.Session) (docs : List CS.Document) (nid : Nat),
    (CS.runBatch ts tcs s docs nid).docs.length
      = docs.length + (tcs.filter (isGdSuccess ts)).length := by
  intro tcs
  induction tcs with
  | nil => intro s docs nid; simp [CS.runBatch]
  | cons tc rest ih =>
    intro s docs nid
    simp only [CS.runBatch]
    rw [ih]
    rw [executeTool_docs_length]
    rw [List.filter_cons]
    by_cases hp : isGdSuccess ts tc
    · rw [if_pos hp, if_pos hp]
      simp only [List.length_cons]
      omega
    · rw [if_neg hp, if_neg hp]
      omega

/-- C1 (amended): when the model's batch contains at least one successful
`generate_document` call, the orchestrator still dispatches EVERY call in
the batch (the document store grows by the count of successful
generate-document calls over the whole batch); it then returns the fixed
success-confirmation reply embedding the message of the LAST successful
call, reports that call's arguments, marks the outcome `document_saved`,
and issues no follow-up model call. -/
theorem C1_batch_success_amended (ts : List Template) (content : String)
    (tcs : List CS.ToolCall) (fu : CS.ChatApiResult) (s : CS.Session)
    (docs : List CS.Document) (nid : Nat) (msg : String) (tc0 : CS.ToolCall)
    (h : (tcs.filter (isGdSuccess ts)).getLast? = some tc0) :
    ((CS.processWithTools ts (.ok content tcs) fu s docs nid msg).response.state
        = "document_saved")
    ∧ (CS.processWithTools ts (.ok content tcs) fu s docs nid msg).response.document_saved = true
    ∧ (CS.processWithTools ts (.ok content tcs) fu s docs nid msg).modelCalls = 1
    ∧ (CS.processWithTools ts (.ok content tcs) fu s docs nid msg).docs.length
        = docs.length + (tcs.filter (isGdSuccess ts)).length
    ∧ (CS.processWithTools ts (.ok content tcs) fu s docs nid msg).response.reply
        = CS.docSavedReply (CS.gdMessage (gdTemplateName ts tc0.args)
            (tc0.args.title.getD "Untitled Document"))
    ∧ (CS.processWithTools ts (.ok content tcs) fu s docs nid msg).response.collected_values
        = tc0.args.values
    ∧ (CS.processWithTools ts (.ok content tcs) fu s docs nid msg).response.template_id
        = tc0.args.template_id
    ∧ (CS.processWithTools ts (.ok content tcs) fu s docs nid msg).response.document_title
        = tc0.args.title := by
  cases tcs with
  | nil => exact absurd h (by simp)
  | cons tc rest =>
    obtain ⟨r, hr, hm⟩ := runBatch_final_some ts (tc :: rest)
      { s with messages := s.messages ++ [{ role := "user", content := msg }] }
      docs nid tc0 h
    have hd := runBatch_docs_length ts (tc :: rest)
      { s with messages := s.messages ++ [{ role := "user", content := msg }] }
      docs nid
    simp only [CS.processWithTools]
    rw [hr]
    refine ⟨rfl, rfl, rfl, hd, ?_, rfl, rfl, rfl⟩
    simp [CS.mkDocSavedResponse, hm]

/-- C1 witness: a single successful `generate_document` call. -/
theorem C1_batch_success_witness :
    ((CS.processWithTools [T1] (.ok "" [gdA]) (.err "") {} [] 0 "go").response.state
        = "document_saved")
    ∧ (CS.processWithTools [T1] (.ok "" [gdA]) (.err "") {} [] 0 "go").response.document_saved = true
    ∧ (CS.processWithTools [T1] (.ok "" [gdA]) (.err "") {} [] 0 "go").modelCalls = 1
    ∧ (CS.processWithTools [T1] (.ok "" [gdA]) (.err "") {} [] 0 "go").docs.length
        = ([] : List CS.Document).length + ([gdA].filter (isGdSuccess [T1])).length
    ∧ (CS.processWithTools [T1] (.ok "" [gdA]) (.err "") {} [] 0 "go").response.reply
        = CS.docSavedReply (CS.gdMessage (gdTemplateName [T1] gdA.args)
            (gdA.args.title.getD "Untitled Document"))
    ∧ (CS.processWithTools [T1] (.ok "" [gdA]) (.err "") {} [] 0 "go").response.collected_values
        = gdA.args.values
    ∧ (CS.processWithTools [T1] (.ok "" [gdA]) (.err "") {} [] 0 "go").response.template_id
        = gdA.args.template_id
    ∧ (CS.processWithTools [T1] (.ok "" [gdA]) (.err "") {} [] 0 "go").response.document_title
        = gdA.args.title :=
  C1_batch_success_amended [T1] "" [gdA] (.err "") {} [] 0 "go" gdA (by decide)

/-- C1 (counterexample to the claim as stated): a batch holding two
successful `generate_document` calls produces TWO persisted documents —
the call after the first success was dispatched, not ignored — and the
emitted confirmation embeds the SECOND call's message, not the first's. -/
theorem C1_short_circuit_counterexample :
    (CS.processWithTools [T1] (.ok "" [gdA, gdB]) (.err "") {} [] 0 "go").docs.length = 2
    ∧ (CS.processWithTools [T1] (.ok "" [gdA, gdB]) (.err "") {} [] 0 "go").response.reply
        = CS.docSavedReply (CS.gdMessage "T" "B")
    ∧ CS.docSavedReply (CS.gdMessage "T" "B") ≠ CS.docSavedReply (CS.gdMessage "T" "A") :=
  ⟨rfl, rfl, by decide⟩

/-- Folding conditional additions counts the satisfying elements. -/
theorem foldl_count_add {α : Type} (c : Nat) (p : α → Bool) :
    ∀ (l : List α) (init : Nat),
    l.foldl (fun a w => if p w then a + c else a) init = init + c * l.countP p := by
  intro l
  induction l with
  | nil => intro init; simp
  | cons x xs ih =>
    intro init
    rw [List.foldl_cons, List.countP_cons]
    by_cases hx : p x
    · rw [if_pos hx, if_pos hx, ih]; ring
    · rw [if_neg hx, if_neg hx, ih]
      simp [hx]

/-- The nested alias loop sums 50 per matched alias phrase of each key
contained in the template name. -/
theorem foldl_alias (pl name_lower : String) :
    ∀ (al : List (String × List String)) (init : Nat),
    al.foldl
      (fun a kv =>
        if strContains name_lower kv.1 then
          kv.2.foldl (fun b x => if strContains pl x then b + 50 else b) a
        else a) init
    = init + 50 * ((al.map
        (fun kv =>
          if strContains name_lower kv.1 then
            kv.2.countP (fun x => strContains pl x)
          else 0)).sum) := by
  intro al
  induction al with
  | nil => intro init; simp
  | cons kv rest ih =>
    intro init
    rw [List.foldl_cons, List.map_cons, List.sum_cons]
    by_cases hq : strContains name_lower kv.1
    · rw [if_pos hq, if_pos hq, foldl_count_add 50 (fun x => strContains pl x), ih]
      ring
    · rw [if_neg hq, if_neg hq, ih]
      ring

/-- The sequential score loop of `detect_template` computes the §4.3 sum
formula. -/
theorem templateScore_eq_spec (pl : String) (t : Template) :
    CM.templateScore pl t = spec_score pl t := by
  by_cases hd : String.mk (pyLower (t.description.getD "").data) = ""
  · have hdata : pyLower (t.description.getD "").data = [] := congrArg String.data hd
    unfold CM.templateScore spec_score
    dsimp only
    rw [hdata]
    have hne : ¬ (({ data := ([] : List Char) } : String) ≠ "") := by decide
    rw [if_neg hne]
    rw [foldl_count_add 30 (fun w => w.length > 2 && listContains pl.data w)]
    rw [foldl_alias pl]
    have hc0 : (pySplit ([] : List Char)).countP
        (fun w => w.length > 3 && listContains pl.data w) = 0 := rfl
    rw [hc0, Nat.mul_zero, Nat.add_zero]
  · unfold CM.templateScore spec_score
    dsimp only
    rw [if_pos hd]
    rw [foldl_count_add 30 (fun w => w.length > 2 && listContains pl.data w)]
    rw [foldl_count_add 10 (fun w => w.length > 3 && listContains pl.data w)]
    rw [foldl_alias pl]

/-- An initial accumulator never exceeds a max-fold over it. -/
theorem foldl_max_le_init : ∀ (l : List Nat) (m : Nat), m ≤ l.foldl max m := by
  intro l
  induction l with
  | nil => intro m; simp
  | cons a l ih =>
    intro m
    rw [List.foldl_cons]
    exact le_trans (Nat.le_max_left m a) (ih (max m a))

/-- Every member of a list is bounded by its max-fold. -/
theorem mem_le_foldl_max : ∀ (l : List Nat) (m a : Nat), a ∈ l → a ≤ l.foldl max m := by
  intro l
  induction l with
  | nil => intro m a h; exact absurd h (List.not_mem_nil a)
  | cons b l ih =>
    intro m a h
    rw [List.foldl_cons]
    rcases List.mem_cons.mp h with h1 | h2
    · subst h1
      exact le_trans (Nat.le_max_right m a) (foldl_max_le_init l (max m a))
    · exact ih (max m b) a h2

/-- The best-match fold realizes the spec's selection rule: its score is
the maximum score over the active templates, and while positive, its
champion is the FIRST active template attaining that maximum. -/
theorem detectFold_spec (f : Template → Nat) :
    ∀ l : List Template,
    (detectFold f l).2 = ((l.filter (fun t => t.is_active)).map f).foldl max 0
    ∧ ((detectFold f l).2 > 0 →
        (detectFold f l).1
          = (l.filter (fun t => t.is_active)).find? (fun t => f t == (detectFold f l).2))
    ∧ ((detectFold f l).2 = 0
        ∨ ∃ x ∈ l.filter (fun t => t.is_active), f x = (detectFold f l).2) := by
  intro l
  induction l using List.reverseRecOn with
  | nil =>
    exact ⟨rfl, fun h => absurd h (by simp [detectFold]), Or.inl rfl⟩
  | append_singleton l t ih =>
    obtain ⟨ih2, ih1, ihex⟩ := ih
    have hstep : detectFold f (l ++ [t])
        = (if ¬ t.is_active then detectFold f l
           else if f t > (detectFold f l).2 then (some t, f t) else detectFold f l) := by
      unfold detectFold
      rw [List.foldl_append]
      rfl
    have hfilter : (l ++ [t]).filter (fun t => t.is_active)
        = l.filter (fun t => t.is_active) ++ (if t.is_active then [t] else []) := by
      rw [List.filter_append]
      congr 1
      simp [List.filter_cons]
    by_cases ha : t.is_active
    · by_cases hgt : f t > (detectFold f l).2
      · have hval : detectFold f (l ++ [t]) = (some t, f t) := by
          rw [hstep]; simp [ha, hgt]
        have hmax : ((l.filter (fun t => t.is_active)).map f).foldl max 0 ≤ f t := by
          rw [← ih2]; exact Nat.le_of_lt hgt
        refine ⟨?_, ?_, ?_⟩
        · rw [hval, hfilter, if_pos ha, List.map_append, List.foldl_append]
          simp only [List.map_cons, List.map_nil, List.foldl_cons, List.foldl_nil]
          exact (Nat.max_eq_right hmax).symm
        · intro _
          rw [hval, hfilter, if_pos ha, List.find?_append]
          have hnone : (l.filter (fun t => t.is_active)).find?
              (fun x => f x == (some t, f t).2) = none := by
            rw [List.find?_eq_none]
            intro x hx
            have hle : f x ≤ ((l.filter (fun t => t.is_active)).map f).foldl max 0 :=
              mem_le_foldl_max _ _ _ (List.mem_map_of_mem f hx)
            have hlt : f x < f t := lt_of_le_of_lt (ih2 ▸ hle) hgt
            simp [Nat.ne_of_lt hlt]
          rw [hnone]
          simp
        · refine Or.inr ⟨t, ?_, ?_⟩
          · rw [hfilter, if_pos ha]
            exact List.mem_append_right _ (List.mem_singleton.mpr rfl)
          · rw [hval]
      · have hval : detectFold f (l ++ [t]) = detectFold f l := by
          rw [hstep]; simp [ha, hgt]
        have hle : f t ≤ (detectFold f l).2 := Nat.le_of_not_lt hgt
        refine ⟨?_, ?_, ?_⟩
        · rw [hval, hfilter, if_pos ha, List.map_append, List.foldl_append]
          simp only [List.map_cons, List.map_nil, List.foldl_cons, List.foldl_nil]
          rw [ih2]
          exact (Nat.max_eq_left (ih2 ▸ hle)).symm
        · intro hpos
          rw [hval] at hpos ⊢
          have h1 := ih1 hpos
          rcases ihex with hz | ⟨x, hx, hfx⟩
          · omega
          · have hsome : ((l.filter (fun t => t.is_active)).find?
                (fun y => f y == (detectFold f l).2)).isSome := by
              rw [List.find?_isSome]
              exact ⟨x, hx, by simp [hfx]⟩
            obtain ⟨y, hy⟩ := Option.isSome_iff_exists.mp hsome
            rw [hfilter, if_pos ha, List.find?_append, hy]
            rw [h1, hy]
            rfl
        · rcases ihex with hz | ⟨x, hx, hfx⟩
          · exact Or.inl (hval ▸ hz)
          · refine Or.inr ⟨x, ?_, hval ▸ hfx⟩
            rw [hfilter]
            exact List.mem_append_left _ hx
    · have hval : detectFold f (l ++ [t]) = detectFold f l := by
        rw [hstep]; simp [ha]
      have hfl : (l ++ [t]).filter (fun t => t.is_active)
          = l.filter (fun t => t.is_active) := by
        rw [hfilter, if_neg ha, List.append_nil]
      exact ⟨by rw [hval, hfl, ih2], by rw [hval, hfl]; exact ih1,
        by rw [hval, hfl]; exact ihex⟩

/-- The matcher equals the spec's §4.3 selection rule. -/
theorem detect_eq_spec (ts : List Template) (p : String) :
    CM.detect_template ts p = spec_detect ts p := by
  simp only [CM.detect_template, spec_detect]
  have hfe : CM.templateScore (String.mk (pyLower p.data))
      = spec_score (String.mk (pyLower p.data)) :=
    funext (templateScore_eq_spec _)
  rw [hfe]
  obtain ⟨h2, h1, _⟩ := detectFold_spec (spec_score (String.mk (pyLower p.data))) ts
  rw [h2] at h1 ⊢
  by_cases hm : ((ts.filter (fun t => t.is_active)).map
      (spec_score (String.mk (pyLower p.data)))).foldl max 0 ≥ 30
  · rw [if_pos hm, if_pos hm]
    exact h1 (by omega)
  · rw [if_neg hm, if_neg hm]


/-- C6: the matcher scores templates by the §4.3 formula (sum of the four
components, then the 1.5 boost with integer truncation), excludes
inactive templates, keeps the first template attaining the strictly
highest score, answers only at score 30 or more — and on the spec's
examples returns the NDA template for "I need an NDA for a new vendor"
and no match for "What's the weather". -/
theorem C6_matcher_spec :
    (∀ pl t, CM.templateScore pl t = spec_score pl t)
    ∧ (∀ ts p, CM.detect_template ts p = spec_detect ts p)
    ∧ CM.detect_template [NdaT, InvoiceT] "I need an NDA for a new vendor" = some NdaT
    ∧ CM.detect_template [NdaT, InvoiceT] ("What" ++ aposS ++ "s the weather") = none :=
  ⟨templateScore_eq_spec, detect_eq_spec, by decide, by decide⟩

end FillWise

